import Mathlib

/-!
Verification development for the template-replay task-creation pipeline of
`task_templating.py` (UseMotionScripts).

The embedding models the pure core of the script:

* Python `datetime` values at one-second granularity (`PyDateTime`), with
  the proleptic-Gregorian calendar conversions used by `isoformat` and
  `fromisoformat` (the pre-3.11 `fromisoformat` grammar:
  `YYYY-MM-DD[<sep>HH[:MM[:SS]]][+HH:MM|-HH:MM]`; fractional seconds are
  below the model's granularity and are not modelled).
* `str.replace` as `replaceAll` over lists of characters.
* The field derivation of lines 281-316 of `create_tasks_from_template`
  (`deriveDueDate`, `derivePayload`), including the `KeyError` raised by
  the `task_data["name"]` / `task_data["priority"]` dictionary lookups and
  the Python truthiness tests on `project_id` / `selected_schedule`.
* The rate-limited dispatch loop of lines 272-331 (`runLoop`), as a state
  machine over success/failure counters, a wall clock, and a trace of
  observable events (HTTP task submissions and sleeps).  The Gateway is a
  parameter `ok : Nat → Bool` telling whether the i-th POST response
  carries an `id`; per-request latency is a parameter `lat : Nat → Nat`.
* The guard of lines 220-222 (`createTasksFromTemplate`) and the template
  generation of lines 124-133 (`generateTemplateTasks`).
-/

namespace TaskTemplating

/-- Strings are modelled as lists of characters, so that `str.replace`
and the date parser can be reasoned about positionally. -/
abbrev Str := List Char

/-- Model of a Python `datetime` value at one-second granularity:
`secs` is the naive (wall-clock) calendar time in seconds since
1970-01-01T00:00:00, and `offsetMin` is the timezone offset in minutes
(`none` for a naive datetime, as produced by `datetime.utcnow()`). -/
structure PyDateTime where
  secs : Int
  offsetMin : Option Int
deriving DecidableEq

/-- The instant a `PyDateTime` denotes, in UTC seconds (a naive value is
read at face value, matching how the script compares/serializes them). -/
def pyInstant (dt : PyDateTime) : Int := dt.secs - 60 * dt.offsetMin.getD 0

def isLeap (y : Nat) : Bool := y % 4 == 0 && (y % 100 != 0 || y % 400 == 0)

def daysInMonth (y m : Nat) : Nat :=
  if m = 2 then (if isLeap y then 29 else 28)
  else if m = 4 ∨ m = 6 ∨ m = 9 ∨ m = 11 then 30
  else 31

/-- Days from 1970-01-01 of a civil date (proleptic Gregorian), for
years ≥ 1 as validated by the parser. -/
def daysFromCivil (y m d : Nat) : Int :=
  let y' := if m ≤ 2 then y - 1 else y
  let era := y' / 400
  let yoe := y' % 400
  let mp := (m + 9) % 12
  let doy := (153 * mp + 2) / 5 + d - 1
  let doe := yoe * 365 + yoe / 4 - yoe / 100 + doy
  ((era * 146097 + doe : Nat) : Int) - 719468

/-- Civil date (year, month, day) of a day count from 1970-01-01. -/
def civilFromDays (z : Int) : Nat × Nat × Nat :=
  let n := (z + 719468).toNat
  let era := n / 146097
  let doe := n % 146097
  let yoe := (doe - doe / 1460 + doe / 36524 - doe / 146096) / 365
  let y := yoe + era * 400
  let doy := doe - (365 * yoe + yoe / 4 - yoe / 100)
  let mp := (5 * doy + 2) / 153
  let d := doy - (153 * mp + 2) / 5 + 1
  let m := if mp < 10 then mp + 3 else mp - 9
  (if m ≤ 2 then y + 1 else y, m, d)

/-- Decimal digit character for `n % 10`. -/
def digitChar (n : Nat) : Char := Char.ofNat (48 + n % 10)

def pad2 (n : Nat) : Str := [digitChar (n / 10), digitChar n]

def pad4 (n : Nat) : Str :=
  [digitChar (n / 1000), digitChar (n / 100), digitChar (n / 10), digitChar n]

/-- The naive part of Python `datetime.isoformat()`:
`YYYY-MM-DDTHH:MM:SS` (microseconds are zero in the model). -/
def isoNaive (secs : Int) : Str :=
  let day := secs / 86400
  let sod := (secs % 86400).toNat
  let c := civilFromDays day
  pad4 c.1 ++ '-' :: pad2 c.2.1 ++ '-' :: pad2 c.2.2 ++
    'T' :: pad2 (sod / 3600) ++ ':' :: pad2 (sod % 3600 / 60) ++ ':' :: pad2 (sod % 60)

/-- The timezone suffix of `isoformat()`: empty for a naive datetime,
`±HH:MM` for an aware one. -/
def offsetChars : Option Int → Str
  | none => []
  | some o => (if 0 ≤ o then '+' else '-') :: pad2 (o.natAbs / 60) ++ ':' :: pad2 (o.natAbs % 60)

/-- Python `datetime.isoformat()`. -/
def isoformatRaw (dt : PyDateTime) : Str := isoNaive dt.secs ++ offsetChars dt.offsetMin

/-- Whether `pat` is an initial segment of `s`. -/
def startsWith : Str → Str → Bool
  | [], _ => true
  | _ :: _, [] => false
  | p :: ps, c :: cs => p == c && startsWith ps cs

/-- Worker for `replaceAll`: the pattern is `p :: pt`.  The fuel argument
makes the recursion structural; every step consumes at least one character
of `s`, so fuel `s.length` never runs out. -/
def replaceGo (p : Char) (pt rep : Str) : Nat → Str → Str
  | 0, s => s
  | _ + 1, [] => []
  | fuel + 1, c :: cs =>
    if c = p ∧ startsWith pt cs then rep ++ replaceGo p pt rep fuel (cs.drop pt.length)
    else c :: replaceGo p pt rep fuel cs

/-- Python `s.replace(pat, rep)`: replace every (leftmost, non-overlapping)
occurrence of `pat` in `s` by `rep`.  The script only calls it with the
non-empty patterns `"Z"` and `"+00:00"`. -/
def replaceAll : Str → Str → Str → Str
  | [], _, s => s
  | p :: pt, rep, s => replaceGo p pt rep s.length s

def zChar : Str := ['Z']

def plus00 : Str := "+00:00".data

/-- Lines 291 / 307: `dt.isoformat().replace("+00:00", "Z")`. -/
def isoformatZ (dt : PyDateTime) : Str := replaceAll plus00 zChar (isoformatRaw dt)

/-- Line 307: `datetime.utcnow().isoformat().replace("+00:00", "Z")` —
note `utcnow()` is naive, so the replacement never fires here. -/
def utcnowIso (now : Int) : Str := isoformatZ ⟨now, none⟩

def digitVal (c : Char) : Option Nat :=
  if c.isDigit then some (c.toNat - 48) else none

def parse2 : Str → Option (Nat × Str)
  | a :: b :: rest => do
    let x ← digitVal a
    let y ← digitVal b
    pure (10 * x + y, rest)
  | _ => none

def parse4 : Str → Option (Nat × Str)
  | a :: b :: c :: d :: rest => do
    let w ← digitVal a
    let x ← digitVal b
    let y ← digitVal c
    let z ← digitVal d
    pure (1000 * w + 100 * x + 10 * y + z, rest)
  | _ => none

def expect (c : Char) : Str → Option Str
  | d :: rest => if d = c then some rest else none
  | [] => none

/-- Time-of-day component `HH[:MM[:SS]]`, returning seconds of day. -/
def parseTime (s : Str) : Option (Nat × Str) := do
  let (h, r) ← parse2 s
  if 24 ≤ h then none else
  match r with
  | ':' :: r' => do
    let (mi, r2) ← parse2 r'
    if 60 ≤ mi then none else
    match r2 with
    | ':' :: r3 => do
      let (se, r4) ← parse2 r3
      if 60 ≤ se then none else pure (3600 * h + 60 * mi + se, r4)
    | _ => pure (3600 * h + 60 * mi, r2)
  | _ => pure (3600 * h, r)

def parseOffsetHM (s : Str) : Option Int := do
  let (oh, r1) ← parse2 s
  let r2 ← expect ':' r1
  let (om, r3) ← parse2 r2
  if 24 ≤ oh ∨ 60 ≤ om ∨ r3 ≠ [] then none else pure (60 * oh + om : Nat)

/-- Trailing timezone designator: absent (naive) or `±HH:MM` in minutes. -/
def parseOffset : Str → Option (Option Int)
  | [] => some none
  | '+' :: r => do pure (some (← parseOffsetHM r))
  | '-' :: r => do pure (some (-(← parseOffsetHM r)))
  | _ => none

/-- Python `datetime.fromisoformat` (pre-3.11 grammar, second granularity):
`YYYY-MM-DD[<sep>HH[:MM[:SS]]][±HH:MM]` with `<sep>` being `T` or a space,
with full range validation.  Returns `none` on a `ValueError`. -/
def fromisoformat (s : Str) : Option PyDateTime := do
  let (y, r1) ← parse4 s
  let r2 ← expect '-' r1
  let (mo, r3) ← parse2 r2
  let r4 ← expect '-' r3
  let (d, r5) ← parse2 r4
  if y < 1 ∨ 9999 < y ∨ mo < 1 ∨ 12 < mo ∨ d < 1 ∨ daysInMonth y mo < d then none else
  match r5 with
  | [] => pure ⟨86400 * daysFromCivil y mo d, none⟩
  | sep :: r6 =>
    if sep ≠ 'T' ∧ sep ≠ ' ' then none else do
    let (sod, r7) ← parseTime r6
    let off ← parseOffset r7
    pure ⟨86400 * daysFromCivil y mo d + sod, off⟩

/-- One entry of a template's `tasks` list, as loaded from JSON: a
dictionary whose keys may each be absent.  `create_tasks_from_template`
reads `name` and `priority` with `task_data[...]` (raising `KeyError`
when absent) and `dueDate` / `duration` with `.get(...)` defaults; the
stored `workspaceId` is never read at replay. -/
structure TaskSpec where
  name : Option Str
  workspaceId : Option Str
  dueDate : Option Str
  duration : Option Int
  priority : Option Str
deriving DecidableEq

/-- The run-scoped parameters resolved by the interactive layer before the
dispatch loop runs: selected workspace id, optionally created project id,
due-date day offset, optionally selected schedule name, autoschedule flag. -/
structure RunParams where
  workspaceId : Str
  projectId : Option Str
  dueDateDelta : Int
  selectedSchedule : Option Str
  useAutoschedule : Bool

/-- The `autoScheduled` block of a task-creation payload (lines 306-316). -/
structure AutoScheduled where
  startDate : Str
  deadlineType : Str
  schedule : Str
deriving DecidableEq

/-- A task-creation payload (`post_payload`, lines 294-316).  An `Option`
field being `none` models the key being absent from the dictionary. -/
structure Payload where
  name : Str
  workspaceId : Str
  dueDate : Str
  duration : Int
  priority : Str
  projectId : Option Str
  autoScheduled : Option AutoScheduled
deriving DecidableEq

/-- Python truthiness of `project_id` / `selected_schedule`: both are
`None` or a string, and an empty string is falsy. -/
def truthy : Option Str → Bool
  | none => false
  | some s => !s.isEmpty

/-- Line 282: the fallback constant used when `dueDate` is absent. -/
def fallbackDue : Str := "2024-12-31T23:59:59Z".data

/-- Lines 281-289: resolve the base due date and apply the day offset.
`datetime.fromisoformat(original.replace("Z", "+00:00")) +
timedelta(days=delta)`; on `ValueError` the naive `datetime.utcnow()` is
substituted instead. -/
def deriveDueDate (spec : TaskSpec) (delta : Int) (now : Int) : PyDateTime :=
  let original := spec.dueDate.getD fallbackDue
  match fromisoformat (replaceAll zChar plus00 original) with
  | some d => ⟨d.secs + 86400 * delta, d.offsetMin⟩
  | none => ⟨now, none⟩

def sOFT : Str := "SOFT".data

def workHours : Str := "Work Hours".data

/-- Lines 305-316: the `autoScheduled` block, governed by the truthiness
of `selected_schedule` and the `use_autoschedule` flag. -/
def autoBlock (p : RunParams) (now : Int) : Option AutoScheduled :=
  if truthy p.selectedSchedule then
    some ⟨utcnowIso now, sOFT, p.selectedSchedule.getD []⟩
  else if p.useAutoschedule && !truthy p.selectedSchedule then
    some ⟨utcnowIso now, sOFT, workHours⟩
  else none

/-- The value of `post_payload` built at lines 294-316 for a spec whose
`name` and `priority` keys are present (otherwise the construction raises,
see `derivePayload`).  `now` is the wall clock of this loop iteration. -/
def payloadOf (spec : TaskSpec) (p : RunParams) (now : Int) : Payload :=
  { name := spec.name.getD []
    workspaceId := p.workspaceId
    dueDate := isoformatZ (deriveDueDate spec p.dueDateDelta now)
    duration := spec.duration.getD 30
    priority := spec.priority.getD []
    projectId := if truthy p.projectId then p.projectId else none
    autoScheduled := autoBlock p now }

def keyErrorName : Str := "KeyError: name".data

def keyErrorPriority : Str := "KeyError: priority".data

/-- Field derivation for one task spec.  The dictionary literal of lines
294-300 evaluates `task_data["name"]` first and `task_data["priority"]`
last, so a spec missing either key raises `KeyError` (modelled as
`Except.error`); otherwise the payload `payloadOf` is produced. -/
def derivePayload (spec : TaskSpec) (p : RunParams) (now : Int) : Except Str Payload :=
  match spec.name, spec.priority with
  | none, _ => .error keyErrorName
  | some _, none => .error keyErrorPriority
  | some _, some _ => .ok (payloadOf spec p now)

/-- Line 278: the fixed inter-request delay in seconds. -/
def DELAY_SECONDS : Nat := 8

/-- An externally observable action of the dispatch loop: an HTTP POST of
a task-creation payload at wall-clock time `t`, or a `time.sleep`. -/
inductive Event where
  | submit (t : Int) (pay : Payload)
  | sleep (secs : Nat)
deriving DecidableEq

/-- State of the dispatch loop: the two counters of lines 272-273, the
wall clock, and the trace of events so far (in order). -/
structure RunState where
  succ : Nat
  fail : Nat
  now : Int
  events : List Event
deriving DecidableEq

/-- The dispatch loop of lines 279-329.  `ok i` tells whether the response
to the i-th POST is truthy and carries an `"id"` key (line 321); `lat i`
is the wall-clock time consumed by the i-th POST.  Each iteration derives
the payload (raising `KeyError` past the loop on a malformed spec,
modelled by `Except.error` carrying the state reached so far), POSTs it,
bumps exactly one counter, and sleeps `DELAY_SECONDS`. -/
def runLoop (p : RunParams) (ok : Nat → Bool) (lat : Nat → Nat) :
    List TaskSpec → Nat → RunState → Except RunState RunState
  | [], _, st => .ok st
  | spec :: rest, i, st =>
    match derivePayload spec p st.now with
    | .error _ => .error st
    | .ok pay =>
      runLoop p ok lat rest (i + 1)
        { succ := st.succ + (if ok i then 1 else 0)
          fail := st.fail + (if ok i then 0 else 1)
          now := st.now + ((lat i + DELAY_SECONDS : Nat) : Int)
          events := st.events ++ [Event.submit st.now pay, Event.sleep DELAY_SECONDS] }

/-- A loaded template: a JSON object that may or may not have a `tasks`
key (the model restricts the key's value to a list of task specs). -/
structure Template where
  tasks : Option (List TaskSpec)

/-- Lines 218-222 and the loop: `create_tasks_from_template` returns
immediately (`none`, no dispatch) when the template is falsy or has no
`tasks` key, and otherwise runs the dispatch loop from zeroed counters at
start time `t0`. -/
def createTasksFromTemplate (tmpl : Option Template) (p : RunParams) (ok : Nat → Bool)
    (lat : Nat → Nat) (t0 : Int) : Option (Except RunState RunState) :=
  match tmpl with
  | none => none
  | some t =>
    match t.tasks with
    | none => none
    | some specs => some (runLoop p ok lat specs 0 ⟨0, 0, t0, []⟩)

/-- A task object as fetched from the remote service (relevant fields). -/
structure MotionTask where
  name : Option Str
  dueDate : Option Str
  duration : Option Int
  priority : Option Str

/-- Lines 124-133 of `generate_task_template`: each fetched task becomes a
template entry with defaults applied and the generation-time workspace id
stored in the entry. -/
def generateTemplateTasks (workspaceId : Str) (tasks : List MotionTask) : List TaskSpec :=
  tasks.map fun task =>
    { name := some (task.name.getD [])
      workspaceId := some workspaceId
      dueDate := some (task.dueDate.getD fallbackDue)
      duration := some (task.duration.getD 30)
      priority := some (task.priority.getD "MEDIUM".data) }

/-- A task spec on which the payload construction does not raise: the
`name` and `priority` keys are present. -/
def wfSpec (s : TaskSpec) : Prop := s.name.isSome = true ∧ s.priority.isSome = true

instance : DecidablePred wfSpec := fun _ => instDecidableAnd

def wfSpecs (l : List TaskSpec) : Prop := ∀ s ∈ l, wfSpec s

instance (l : List TaskSpec) : Decidable (wfSpecs l) := List.decidableBAll wfSpec l

/-- Number of successful responses among request indices `[i, i+n)`. -/
def countT (ok : Nat → Bool) : Nat → Nat → Nat
  | _, 0 => 0
  | i, n + 1 => (if ok i then 1 else 0) + countT ok (i + 1) n

/-- Number of failed responses among request indices `[i, i+n)`. -/
def countF (ok : Nat → Bool) : Nat → Nat → Nat
  | _, 0 => 0
  | i, n + 1 => (if ok i then 0 else 1) + countF ok (i + 1) n

/-- Wall-clock seconds consumed by `n` loop iterations starting at
request index `i`: latency plus the fixed sleep, per iteration. -/
def advance (lat : Nat → Nat) : Nat → Nat → Int
  | _, 0 => 0
  | i, n + 1 => ((lat i + DELAY_SECONDS : Nat) : Int) + advance lat (i + 1) n

/-- The event trace the loop appends when dispatching `specs` from request
index `i` at wall-clock time `t` (provided no spec raises). -/
def mkTrace (p : RunParams) (lat : Nat → Nat) : List TaskSpec → Nat → Int → List Event
  | [], _, _ => []
  | spec :: rest, i, t =>
    Event.submit t (payloadOf spec p t) :: Event.sleep DELAY_SECONDS ::
      mkTrace p lat rest (i + 1) (t + ((lat i + DELAY_SECONDS : Nat) : Int))

def countSubmits : List Event → Nat
  | [] => 0
  | Event.submit _ _ :: rest => countSubmits rest + 1
  | Event.sleep _ :: rest => countSubmits rest

def countSleeps : List Event → Nat
  | [] => 0
  | Event.submit _ _ :: rest => countSleeps rest
  | Event.sleep _ :: rest => countSleeps rest + 1

/-- The wall-clock times of the submissions in a trace, in trace order. -/
def submitTimes : List Event → List Int
  | [] => []
  | Event.submit t _ :: rest => t :: submitTimes rest
  | Event.sleep _ :: rest => submitTimes rest

/-- The submitted payloads of a trace, in trace order. -/
def submitPayloads : List Event → List Payload
  | [] => []
  | Event.submit _ pay :: rest => pay :: submitPayloads rest
  | Event.sleep _ :: rest => submitPayloads rest

/-- Whether a trace is an alternation of a submission immediately followed
by an 8-second sleep — in particular the final submission is also followed
by a sleep, and no two submissions happen without a sleep in between. -/
def alternatesB : List Event → Bool
  | [] => true
  | Event.submit _ _ :: Event.sleep 8 :: rest => alternatesB rest
  | _ => false

def isOkE : Except RunState RunState → Bool
  | .ok _ => true
  | .error _ => false

/-- The loop state carried by either outcome: the final state of a
completed run, or the state at the iteration where the loop raised. -/
def stateOf : Except RunState RunState → RunState
  | .ok st => st
  | .error st => st

/-- The `autoScheduled` block of a derivation outcome, when any. -/
def autoOf : Except Str Payload → Option AutoScheduled
  | .ok pay => pay.autoScheduled
  | .error _ => none

/-- The epoch seconds of the fallback constant `2024-12-31T23:59:59Z`. -/
def fallbackSecs : Int := 86400 * daysFromCivil 2024 12 31 + 86399

theorem derivePayload_of_wf (spec : TaskSpec) (p : RunParams) (now : Int) (h : wfSpec spec) :
    derivePayload spec p now = .ok (payloadOf spec p now) := by
  obtain ⟨h1, h2⟩ := h
  rw [Option.isSome_iff_exists] at h1 h2
  obtain ⟨n, hn⟩ := h1
  obtain ⟨pr, hp⟩ := h2
  simp [derivePayload, hn, hp]

/-- A dispatch over well-formed specs completes, and its final counters,
clock and event trace are described by `countT` / `countF` / `advance` /
`mkTrace`. -/
theorem runLoop_of_wf (p : RunParams) (ok : Nat → Bool) (lat : Nat → Nat) :
    ∀ (specs : List TaskSpec) (i : Nat) (st : RunState), wfSpecs specs →
      runLoop p ok lat specs i st = .ok
        { succ := st.succ + countT ok i specs.length
          fail := st.fail + countF ok i specs.length
          now := st.now + advance lat i specs.length
          events := st.events ++ mkTrace p lat specs i st.now }
  | [], i, st, _ => by
    simp [runLoop, countT, countF, advance, mkTrace]
  | spec :: rest, i, st, h => by
    have hspec : wfSpec spec := h spec (List.mem_cons_self _ _)
    have hrest : wfSpecs rest := fun s hs => h s (List.mem_cons_of_mem _ hs)
    rw [runLoop, derivePayload_of_wf spec p st.now hspec]
    dsimp only
    rw [runLoop_of_wf p ok lat rest (i + 1) _ hrest]
    simp [countT, countF, advance, mkTrace, List.append_assoc, Nat.add_assoc, Int.add_assoc]

theorem countT_add_countF (ok : Nat → Bool) : ∀ (n i : Nat), countT ok i n + countF ok i n = n
  | 0, _ => rfl
  | n + 1, i => by
    have := countT_add_countF ok n (i + 1)
    by_cases h : ok i <;> simp [countT, countF, h] <;> omega

theorem countSubmits_mkTrace (p : RunParams) (lat : Nat → Nat) :
    ∀ (specs : List TaskSpec) (i : Nat) (t : Int),
      countSubmits (mkTrace p lat specs i t) = specs.length
  | [], _, _ => rfl
  | spec :: rest, i, t => by
    simp [mkTrace, countSubmits, countSubmits_mkTrace p lat rest (i + 1)]

theorem countSleeps_mkTrace (p : RunParams) (lat : Nat → Nat) :
    ∀ (specs : List TaskSpec) (i : Nat) (t : Int),
      countSleeps (mkTrace p lat specs i t) = specs.length
  | [], _, _ => rfl
  | spec :: rest, i, t => by
    simp [mkTrace, countSleeps, countSleeps_mkTrace p lat rest (i + 1)]

theorem alternates_mkTrace (p : RunParams) (lat : Nat → Nat) :
    ∀ (specs : List TaskSpec) (i : Nat) (t : Int),
      alternatesB (mkTrace p lat specs i t) = true
  | [], _, _ => rfl
  | spec :: rest, i, t => by
    simp [mkTrace, DELAY_SECONDS, alternatesB, alternates_mkTrace p lat rest (i + 1)]

/-- The j-th submitted payload of a completed dispatch is the payload of
the j-th spec, derived at that iteration's own wall-clock time. -/
theorem submitPayloads_mkTrace (p : RunParams) (lat : Nat → Nat) :
    ∀ (specs : List TaskSpec) (i : Nat) (t : Int) (j : Nat),
      (submitPayloads (mkTrace p lat specs i t))[j]? =
        (specs[j]?).map fun s => payloadOf s p (t + advance lat i j)
  | [], _, _, j => by simp [mkTrace, submitPayloads]
  | spec :: rest, i, t, 0 => by simp [mkTrace, submitPayloads, advance]
  | spec :: rest, i, t, j + 1 => by
    simp only [mkTrace, submitPayloads, List.getElem?_cons_succ,
      submitPayloads_mkTrace p lat rest (i + 1) _ j, List.getElem?_cons_succ, advance]
    simp [Int.add_assoc]

theorem chain_submitTimes (p : RunParams) (lat : Nat → Nat) :
    ∀ (specs : List TaskSpec) (i : Nat) (t : Int),
      List.Chain' (· ≤ ·) (submitTimes (mkTrace p lat specs i t))
  | [], _, _ => by simp [mkTrace, submitTimes]
  | spec :: rest, i, t => by
    simp only [mkTrace, submitTimes]
    rw [List.chain'_cons']
    refine ⟨?_, chain_submitTimes p lat rest (i + 1) _⟩
    intro b hb
    cases rest with
    | nil => simp [mkTrace, submitTimes] at hb
    | cons r rs =>
      simp only [mkTrace, submitTimes, List.head?_cons, Option.mem_def, Option.some.injEq] at hb
      subst hb
      have : (0 : Int) ≤ ((lat i + DELAY_SECONDS : Nat) : Int) := Int.natCast_nonneg _
      omega

theorem autoBlock_startDate (p : RunParams) (now : Int) (a : AutoScheduled)
    (h : autoBlock p now = some a) : a.startDate = utcnowIso now := by
  unfold autoBlock at h
  split at h
  · cases h; rfl
  · split at h
    · cases h; rfl
    · cases h

theorem mkTrace_submit_startDate (p : RunParams) (lat : Nat → Nat) :
    ∀ (specs : List TaskSpec) (i : Nat) (t ts : Int) (pay : Payload),
      Event.submit ts pay ∈ mkTrace p lat specs i t →
      ∀ a, pay.autoScheduled = some a → a.startDate = utcnowIso ts
  | [], _, _, _, _, h => by simp [mkTrace] at h
  | spec :: rest, i, t, ts, pay, h => by
    intro a ha
    simp only [mkTrace, List.mem_cons, Event.submit.injEq] at h
    rcases h with ⟨ht, hpay⟩ | h | h
    · subst ht
      subst hpay
      exact autoBlock_startDate p ts a ha
    · exact absurd h (by simp)
    · exact mkTrace_submit_startDate p lat rest (i + 1) _ ts pay h a ha

theorem digitChar_ne_plus (n : Nat) : digitChar n ≠ '+' := by
  have h : ∀ k, k < 10 → Char.ofNat (48 + k) ≠ '+' := by decide
  exact h (n % 10) (Nat.mod_lt _ (by omega))

theorem plus_not_mem_pad2 (n : Nat) : '+' ∉ pad2 n := by
  intro h
  simp only [pad2, List.mem_cons, List.not_mem_nil, or_false] at h
  rcases h with h | h <;> exact digitChar_ne_plus _ h.symm

theorem plus_not_mem_pad4 (n : Nat) : '+' ∉ pad4 n := by
  intro h
  simp only [pad4, List.mem_cons, List.not_mem_nil, or_false] at h
  rcases h with h | h | h | h <;> exact digitChar_ne_plus _ h.symm

theorem plus_not_mem_isoNaive (secs : Int) : '+' ∉ isoNaive secs := by
  simp [isoNaive, List.mem_append, List.mem_cons, plus_not_mem_pad2, plus_not_mem_pad4]

theorem startsWith_append_self (pt rest : Str) : startsWith pt (pt ++ rest) = true := by
  induction pt with
  | nil => rfl
  | cons c cs ih => simp [startsWith, ih]

theorem replaceGo_nil (p : Char) (pt rep : Str) : ∀ fuel : Nat, replaceGo p pt rep fuel [] = []
  | 0 => rfl
  | _ + 1 => rfl

theorem replaceGo_of_not_mem (p : Char) (pt rep : Str) :
    ∀ (fuel : Nat) (s : Str), p ∉ s → replaceGo p pt rep fuel s = s
  | 0, _, _ => rfl
  | _ + 1, [], _ => rfl
  | fuel + 1, c :: cs, h => by
    have hc : c ≠ p := fun e => h (e ▸ List.mem_cons_self c cs)
    rw [replaceGo, if_neg (fun hand => hc hand.1),
      replaceGo_of_not_mem p pt rep fuel cs (fun hm => h (List.mem_cons_of_mem _ hm))]

/-- Replacing the pattern `p :: pt` in a string that is pattern-free text
followed by exactly one occurrence of the pattern rewrites just that
occurrence (given enough fuel). -/
theorem replaceGo_single (p : Char) (pt rep : Str) :
    ∀ (a : Str) (fuel : Nat), p ∉ a → a.length + pt.length + 1 ≤ fuel →
      replaceGo p pt rep fuel (a ++ p :: pt) = a ++ rep
  | [], fuel, _, hf => by
    obtain ⟨f, rfl⟩ : ∃ f, fuel = f + 1 := ⟨fuel - 1, by omega⟩
    rw [List.nil_append, replaceGo,
      if_pos ⟨rfl, by simpa using startsWith_append_self pt []⟩, List.drop_length,
      replaceGo_nil]
    simp
  | c :: a', fuel, h, hf => by
    obtain ⟨f, rfl⟩ : ∃ f, fuel = f + 1 := ⟨fuel - 1, by omega⟩
    have hc : c ≠ p := fun e => h (e ▸ List.mem_cons_self c a')
    rw [List.cons_append, replaceGo, if_neg (fun hand => hc hand.1),
      replaceGo_single p pt rep a' f (fun hm => h (List.mem_cons_of_mem _ hm))
        (by simp at hf ⊢; omega)]
    rfl

theorem plus00_eq : plus00 = '+' :: "00:00".data := by decide

theorem offsetChars_utc : offsetChars (some 0) = '+' :: "00:00".data := by decide

/-- Serializing a UTC-aware datetime (`+00:00` offset) through
`isoformat().replace("+00:00", "Z")` yields the naive part with a literal
trailing `Z`. -/
theorem isoformatZ_utc (secs : Int) : isoformatZ ⟨secs, some 0⟩ = isoNaive secs ++ ['Z'] := by
  show replaceAll plus00 zChar (isoformatRaw ⟨secs, some 0⟩) = _
  rw [plus00_eq, isoformatRaw, replaceAll]
  show replaceGo '+' ("00:00".data) zChar _ (isoNaive secs ++ offsetChars (some 0)) = _
  rw [offsetChars_utc, replaceGo_single '+' ("00:00".data) zChar (isoNaive secs) _
    (plus_not_mem_isoNaive secs) (by simp)]
  rfl

theorem getLast_append_Z (l : Str) : (l ++ ['Z']).getLast? = some 'Z' := by
  rw [List.getLast?_concat]

/-- The fallback constant parses (after the `Z` pre-replacement) to the
UTC-aware instant `fallbackSecs`. -/
theorem fallback_parse :
    fromisoformat (replaceAll zChar plus00 fallbackDue) = some ⟨fallbackSecs, some 0⟩ := by
  decide

def cxParams : RunParams := ⟨"w".data, none, 0, none, false⟩

def okAll : Nat → Bool := fun _ => true

def latZero : Nat → Nat := fun _ => 0

def isOkP : Except Str Payload → Bool
  | .ok _ => true
  | .error _ => false

/-- The dueDate string of a derivation outcome (error text on a raise). -/
def payDue : Except Str Payload → Str
  | .ok pay => pay.dueDate
  | .error e => e

/-- Number of task submissions performed by a guarded dispatch call. -/
def runSubmits : Option (Except RunState RunState) → Nat
  | none => 0
  | some r => countSubmits (stateOf r).events

/-- C1 (amended): for every dispatch run over a template all of whose task
specs carry the `name` and `priority` keys, the loop completes, performs
exactly one submission per spec, and finishes with
successCount + failureCount = N, each submission incrementing exactly one
of the two counters (`countT`/`countF` split the N responses). -/
theorem C1_dispatch_accounting (p : RunParams) (ok : Nat → Bool) (lat : Nat → Nat)
    (specs : List TaskSpec) (t0 : Int) (hwf : wfSpecs specs) :
    ∃ st', runLoop p ok lat specs 0 ⟨0, 0, t0, []⟩ = .ok st' ∧
      st'.succ + st'.fail = specs.length ∧
      countSubmits st'.events = specs.length ∧
      st'.succ = countT ok 0 specs.length ∧ st'.fail = countF ok 0 specs.length := by
  refine ⟨_, runLoop_of_wf p ok lat specs 0 ⟨0, 0, t0, []⟩ hwf, ?_, ?_, ?_, ?_⟩ <;>
    simp [countSubmits_mkTrace, countT_add_countF]

def w1specs : List TaskSpec :=
  [⟨some "a".data, none, none, none, some "HIGH".data⟩,
   ⟨some "b".data, none, some "not-a-date".data, none, some "LOW".data⟩]

theorem C1_dispatch_accounting_witness :
    wfSpecs w1specs ∧
      ∃ st', runLoop cxParams okAll latZero w1specs 0 ⟨0, 0, 0, []⟩ = .ok st' ∧
        st'.succ + st'.fail = w1specs.length ∧
        countSubmits st'.events = w1specs.length ∧
        st'.succ = countT okAll 0 w1specs.length ∧ st'.fail = countF okAll 0 w1specs.length :=
  ⟨by decide, C1_dispatch_accounting cxParams okAll latZero w1specs 0 (by decide)⟩

def c1cxSpecs : List TaskSpec := [⟨some "a".data, none, none, none, none⟩]

/-- C1 counterexample: over a template whose single task spec lacks the
`priority` key, the dispatch loop raises (KeyError) instead of finishing:
no submission is performed and the counters sum to 0, not N = 1. -/
theorem C1_counterexample :
    isOkE (runLoop cxParams okAll latZero c1cxSpecs 0 ⟨0, 0, 0, []⟩) = false ∧
    (stateOf (runLoop cxParams okAll latZero c1cxSpecs 0 ⟨0, 0, 0, []⟩)).succ +
      (stateOf (runLoop cxParams okAll latZero c1cxSpecs 0 ⟨0, 0, 0, []⟩)).fail = 0 ∧
    c1cxSpecs.length = 1 := by decide

/-- C2 (amended): for every template accepted by the guard all of whose
task specs carry the `name` and `priority` keys, the dispatcher never
raises past its boundary and returns a complete success/failure
accounting. -/
theorem C2_no_raise (p : RunParams) (ok : Nat → Bool) (lat : Nat → Nat)
    (specs : List TaskSpec) (t0 : Int) (hwf : wfSpecs specs) :
    isOkE (runLoop p ok lat specs 0 ⟨0, 0, t0, []⟩) = true ∧
    (stateOf (runLoop p ok lat specs 0 ⟨0, 0, t0, []⟩)).succ +
      (stateOf (runLoop p ok lat specs 0 ⟨0, 0, t0, []⟩)).fail = specs.length := by
  rw [runLoop_of_wf p ok lat specs 0 ⟨0, 0, t0, []⟩ hwf]
  exact ⟨rfl, by simp [stateOf, countT_add_countF]⟩

def w2specs : List TaskSpec :=
  [⟨some "t".data, none, some "2025-06-30T12:00:00Z".data, some 45, some "ASAP".data⟩]

theorem C2_no_raise_witness :
    wfSpecs w2specs ∧
      isOkE (runLoop cxParams okAll latZero w2specs 0 ⟨0, 0, 0, []⟩) = true ∧
      (stateOf (runLoop cxParams okAll latZero w2specs 0 ⟨0, 0, 0, []⟩)).succ +
        (stateOf (runLoop cxParams okAll latZero w2specs 0 ⟨0, 0, 0, []⟩)).fail = w2specs.length :=
  ⟨by decide, C2_no_raise cxParams okAll latZero w2specs 0 (by decide)⟩

def c2cxSpecs : List TaskSpec := [⟨none, none, none, none, some "HIGH".data⟩]

/-- C2 counterexample: a task spec missing the `name` key makes the
dispatcher raise KeyError past its boundary (the run aborts with no
accounting), although the template passes the input-validation guard. -/
theorem C2_counterexample :
    isOkE (runLoop cxParams okAll latZero c2cxSpecs 0 ⟨0, 0, 0, []⟩) = false := by decide

/-- C3 (amended): the `autoScheduled` block is present iff a non-empty
schedule name was selected or the autoschedule flag is set (a selected
empty-string schedule name is falsy in Python and behaves as no
selection); a non-empty selected name wins even when the flag is also
set; when only the flag is effective the name is the literal
`"Work Hours"`; otherwise the key is absent from the payload. -/
theorem C3_autoschedule (spec : TaskSpec) (p : RunParams) (now : Int) (hwf : wfSpec spec) :
    ∃ pay, derivePayload spec p now = .ok pay ∧
      ((pay.autoScheduled ≠ none) ↔ (truthy p.selectedSchedule = true ∨ p.useAutoschedule = true)) ∧
      (∀ nm, p.selectedSchedule = some nm → nm ≠ [] →
        pay.autoScheduled = some ⟨utcnowIso now, sOFT, nm⟩) ∧
      (truthy p.selectedSchedule = false → p.useAutoschedule = true →
        pay.autoScheduled = some ⟨utcnowIso now, sOFT, workHours⟩) ∧
      (truthy p.selectedSchedule = false → p.useAutoschedule = false →
        pay.autoScheduled = none) := by
  have hpa : (payloadOf spec p now).autoScheduled = autoBlock p now := rfl
  refine ⟨payloadOf spec p now, derivePayload_of_wf spec p now hwf, ?_, ?_, ?_, ?_⟩
  · rw [hpa]; unfold autoBlock
    by_cases hts : truthy p.selectedSchedule <;> by_cases hua : p.useAutoschedule <;>
      simp [hts, hua]
  · intro nm hnm hne
    rw [hpa]; unfold autoBlock
    rw [hnm]
    simp [truthy, List.isEmpty_iff, hne]
  · intro hts hua; rw [hpa]; unfold autoBlock; simp [hts, hua]
  · intro hts hua; rw [hpa]; unfold autoBlock; simp [hts, hua]

def w3spec : TaskSpec := ⟨some "a".data, none, none, none, some "MEDIUM".data⟩

def w3params : RunParams := ⟨"w".data, none, 0, some "Night".data, true⟩

theorem C3_autoschedule_witness :
    wfSpec w3spec ∧
      ∃ pay, derivePayload w3spec w3params 77 = .ok pay ∧
        ((pay.autoScheduled ≠ none) ↔
          (truthy w3params.selectedSchedule = true ∨ w3params.useAutoschedule = true)) ∧
        (∀ nm, w3params.selectedSchedule = some nm → nm ≠ [] →
          pay.autoScheduled = some ⟨utcnowIso 77, sOFT, nm⟩) ∧
        (truthy w3params.selectedSchedule = false → w3params.useAutoschedule = true →
          pay.autoScheduled = some ⟨utcnowIso 77, sOFT, workHours⟩) ∧
        (truthy w3params.selectedSchedule = false → w3params.useAutoschedule = false →
          pay.autoScheduled = none) :=
  ⟨by decide, C3_autoschedule w3spec w3params 77 (by decide)⟩

def c3params : RunParams := ⟨"w".data, none, 0, some [], false⟩

def c3spec : TaskSpec := ⟨some "a".data, none, none, none, some "LOW".data⟩

/-- C3 counterexample: run parameters in which a schedule name (the empty
string, a possible schedule name from the service) was explicitly
selected and the flag is unset.  The claim requires the `autoScheduled`
block to be present, yet the derived payload omits it, because
`if selected_schedule:` tests Python truthiness, not selection. -/
theorem C3_counterexample :
    c3params.selectedSchedule = some [] ∧ c3params.useAutoschedule = false ∧
    isOkP (derivePayload c3spec c3params 0) = true ∧
    autoOf (derivePayload c3spec c3params 0) = none := by decide

/-- C4 (amended): the derived payload's dueDate ends with a literal `Z`
whenever the task spec's dueDate is absent (fallback constant) or parses,
after the `Z` to `+00:00` pre-replacement, to a UTC-aware datetime with
offset `+00:00`.  (Naive dueDates, non-UTC numeric offsets and parse
failures are serialized without the `Z` suffix; see the counterexample.) -/
theorem C4_z_suffix (spec : TaskSpec) (p : RunParams) (now : Int) (hwf : wfSpec spec)
    (h : spec.dueDate = none ∨ ∃ s d, spec.dueDate = some s ∧
      fromisoformat (replaceAll zChar plus00 s) = some d ∧ d.offsetMin = some 0) :
    ∃ pay, derivePayload spec p now = .ok pay ∧ pay.dueDate.getLast? = some 'Z' := by
  refine ⟨_, derivePayload_of_wf spec p now hwf, ?_⟩
  have hdd : ∃ x, deriveDueDate spec p.dueDateDelta now = ⟨x, some 0⟩ := by
    rcases h with h | ⟨s, d, hs, hp, ho⟩
    · refine ⟨fallbackSecs + 86400 * p.dueDateDelta, ?_⟩
      unfold deriveDueDate
      rw [h]
      dsimp [Option.getD]
      rw [fallback_parse]
    · refine ⟨d.secs + 86400 * p.dueDateDelta, ?_⟩
      unfold deriveDueDate
      rw [hs]
      dsimp [Option.getD]
      rw [hp]
      dsimp only
      rw [ho]
  obtain ⟨x, hx⟩ := hdd
  show (isoformatZ (deriveDueDate spec p.dueDateDelta now)).getLast? = some 'Z'
  rw [hx, isoformatZ_utc, getLast_append_Z]

def w4spec : TaskSpec := ⟨some "a".data, none, none, none, some "LOW".data⟩

theorem C4_z_suffix_witness :
    wfSpec w4spec ∧ (w4spec.dueDate = none ∨ ∃ s d, w4spec.dueDate = some s ∧
        fromisoformat (replaceAll zChar plus00 s) = some d ∧ d.offsetMin = some 0) ∧
      ∃ pay, derivePayload w4spec cxParams 5 = .ok pay ∧ pay.dueDate.getLast? = some 'Z' :=
  ⟨by decide, Or.inl (by decide), C4_z_suffix w4spec cxParams 5 (by decide) (Or.inl (by decide))⟩

def c4spec : TaskSpec :=
  ⟨some "a".data, none, some "2025-01-02T03:04:05".data, none, some "LOW".data⟩

/-- C4 counterexample: a task spec whose dueDate lacks a UTC designator
parses to a naive datetime, and the derived payload's dueDate is the
naive ISO string `2025-01-02T03:04:05` with no trailing `Z`
(`isoformat()` emits no offset and `.replace("+00:00", "Z")` is a no-op). -/
theorem C4_counterexample :
    isOkP (derivePayload c4spec cxParams 0) = true ∧
    payDue (derivePayload c4spec cxParams 0) = "2025-01-02T03:04:05".data ∧
    (payDue (derivePayload c4spec cxParams 0)).getLast? ≠ some 'Z' := by decide

/-- C5: for every task spec whose dueDate parses (or is absent, in which
case the constant `2024-12-31T23:59:59Z` is used) and every signed
integer offset, the derived due date is the parsed (or fallback) datetime
advanced by exactly `offset` days — both field-wise and as an instant —
and the payload serializes exactly that datetime. -/
theorem C5_offset_law (spec : TaskSpec) (δ now : Int) :
    (spec.dueDate = none →
      deriveDueDate spec δ now = ⟨fallbackSecs + 86400 * δ, some 0⟩ ∧
      pyInstant (deriveDueDate spec δ now) = fallbackSecs + 86400 * δ) ∧
    (∀ s d, spec.dueDate = some s → fromisoformat (replaceAll zChar plus00 s) = some d →
      deriveDueDate spec δ now = ⟨d.secs + 86400 * δ, d.offsetMin⟩ ∧
      pyInstant (deriveDueDate spec δ now) = pyInstant d + 86400 * δ) ∧
    (∀ p : RunParams, (payloadOf spec p now).dueDate =
      isoformatZ (deriveDueDate spec p.dueDateDelta now)) := by
  refine ⟨?_, ?_, fun _ => rfl⟩
  · intro h
    have hd : deriveDueDate spec δ now = ⟨fallbackSecs + 86400 * δ, some 0⟩ := by
      unfold deriveDueDate
      rw [h]
      dsimp [Option.getD]
      rw [fallback_parse]
    rw [hd]
    exact ⟨rfl, by simp [pyInstant]⟩
  · intro s d hs hp
    have hd : deriveDueDate spec δ now = ⟨d.secs + 86400 * δ, d.offsetMin⟩ := by
      unfold deriveDueDate
      rw [hs]
      dsimp [Option.getD]
      rw [hp]
    rw [hd]
    refine ⟨rfl, ?_⟩
    simp only [pyInstant]
    ring

def w5spec : TaskSpec :=
  ⟨some "a".data, none, some "1970-01-02T00:00:00Z".data, none, some "LOW".data⟩

theorem C5_offset_law_witness :
    deriveDueDate w5spec (-1) 0 = ⟨86400 + 86400 * (-1), Option.some 0⟩ ∧
    pyInstant (deriveDueDate w5spec (-1) 0) = pyInstant ⟨86400, some 0⟩ + 86400 * (-1) :=
  (C5_offset_law w5spec (-1) 0).2.1 ("1970-01-02T00:00:00Z").data ⟨86400, some 0⟩ rfl (by decide)

/-- C6 (amended): for every task spec that carries `name` and `priority`
and whose dueDate string fails to parse, the field deriver substitutes
the naive current UTC time as the base due date, still produces a payload
for that task, and the batch continues through all subsequent (well-formed)
tasks instead of aborting. -/
theorem C6_malformed_date (spec : TaskSpec) (p : RunParams) (s : Str)
    (hwf : wfSpec spec) (hs : spec.dueDate = some s)
    (hbad : fromisoformat (replaceAll zChar plus00 s) = none)
    (rest : List TaskSpec) (hrest : wfSpecs rest) (ok : Nat → Bool) (lat : Nat → Nat) (t0 : Int) :
    (∀ δ now, deriveDueDate spec δ now = ⟨now, none⟩) ∧
    derivePayload spec p t0 = .ok (payloadOf spec p t0) ∧
    ∃ st', runLoop p ok lat (spec :: rest) 0 ⟨0, 0, t0, []⟩ = .ok st' ∧
      countSubmits st'.events = rest.length + 1 := by
  refine ⟨?_, derivePayload_of_wf spec p t0 hwf, ?_⟩
  · intro δ now
    unfold deriveDueDate
    rw [hs]
    dsimp [Option.getD]
    rw [hbad]
  · have hwfall : wfSpecs (spec :: rest) := by
      intro x hx
      rcases List.mem_cons.mp hx with h | h
      · exact h ▸ hwf
      · exact hrest x h
    refine ⟨_, runLoop_of_wf p ok lat (spec :: rest) 0 ⟨0, 0, t0, []⟩ hwfall, ?_⟩
    simp [countSubmits_mkTrace]

def w6spec : TaskSpec :=
  ⟨some "bad".data, none, some "not-a-date".data, none, some "HIGH".data⟩

def w6rest : List TaskSpec := [⟨some "c".data, none, none, none, some "LOW".data⟩]

theorem C6_malformed_date_witness :
    (∀ δ now, deriveDueDate w6spec δ now = ⟨now, none⟩) ∧
    derivePayload w6spec cxParams 0 = .ok (payloadOf w6spec cxParams 0) ∧
    ∃ st', runLoop cxParams okAll latZero (w6spec :: w6rest) 0 ⟨0, 0, 0, []⟩ = .ok st' ∧
      countSubmits st'.events = w6rest.length + 1 :=
  C6_malformed_date w6spec cxParams ("not-a-date").data (by decide) rfl (by decide)
    w6rest (by decide) okAll latZero 0

def c6spec : TaskSpec := ⟨none, none, some "not-a-date".data, none, some "LOW".data⟩

/-- C6 counterexample: a task spec whose dueDate is `"not-a-date"` but
which lacks the `name` key.  Contrary to the claim's universal statement,
no payload is produced for it and the batch aborts (KeyError), with zero
submissions performed. -/
theorem C6_counterexample :
    isOkE (runLoop cxParams okAll latZero [c6spec] 0 ⟨0, 0, 0, []⟩) = false ∧
    countSubmits (stateOf (runLoop cxParams okAll latZero [c6spec] 0 ⟨0, 0, 0, []⟩)).events
      = 0 := by decide

/-- C7 (amended): in every dispatch run over specs that all carry `name`
and `priority`, the trace is an alternation in which every submission —
successful or failed, including the final one — is immediately followed
by the fixed 8-second sleep, with exactly N sleeps and exactly N
submissions for N task specs (one submission per spec, no retries). -/
theorem C7_sleep_discipline (p : RunParams) (ok : Nat → Bool) (lat : Nat → Nat)
    (specs : List TaskSpec) (t0 : Int) (hwf : wfSpecs specs) :
    ∃ st', runLoop p ok lat specs 0 ⟨0, 0, t0, []⟩ = .ok st' ∧
      alternatesB st'.events = true ∧
      countSleeps st'.events = specs.length ∧
      countSubmits st'.events = specs.length := by
  refine ⟨_, runLoop_of_wf p ok lat specs 0 ⟨0, 0, t0, []⟩ hwf, ?_, ?_, ?_⟩ <;>
    simp [alternates_mkTrace, countSleeps_mkTrace, countSubmits_mkTrace]

def w7specs : List TaskSpec :=
  [⟨some "a".data, none, none, none, some "HIGH".data⟩,
   ⟨some "b".data, none, none, none, some "LOW".data⟩,
   ⟨some "c".data, none, none, none, some "ASAP".data⟩]

theorem C7_sleep_discipline_witness :
    wfSpecs w7specs ∧
      ∃ st', runLoop cxParams okAll latZero w7specs 0 ⟨0, 0, 0, []⟩ = .ok st' ∧
        alternatesB st'.events = true ∧
        countSleeps st'.events = w7specs.length ∧
        countSubmits st'.events = w7specs.length :=
  ⟨by decide, C7_sleep_discipline cxParams okAll latZero w7specs 0 (by decide)⟩

def c7specs : List TaskSpec :=
  [⟨some "a".data, none, none, none, some "HIGH".data⟩,
   ⟨some "b".data, none, none, none, none⟩]

/-- C7 counterexample: over a 2-spec template whose second spec lacks
`priority`, the run raises at the second iteration: only one sleep is
performed, not the claimed exactly-N (= 2) sleeps. -/
theorem C7_counterexample :
    isOkE (runLoop cxParams okAll latZero c7specs 0 ⟨0, 0, 0, []⟩) = false ∧
    countSleeps (stateOf (runLoop cxParams okAll latZero c7specs 0 ⟨0, 0, 0, []⟩)).events = 1 ∧
    c7specs.length = 2 := by decide

/-- C8 (amended): a falsy/absent template and a template without the
`tasks` key are rejected before any dispatch (no create-task call); a
template whose `tasks` list is empty, however, is not rejected by the
guard — the flow proceeds to a (vacuous) dispatch — but it still performs
zero task submissions. -/
theorem C8_template_guard (p : RunParams) (ok : Nat → Bool) (lat : Nat → Nat) (t0 : Int) :
    createTasksFromTemplate none p ok lat t0 = none ∧
    (∀ t : Template, t.tasks = none → createTasksFromTemplate (some t) p ok lat t0 = none) ∧
    createTasksFromTemplate (some ⟨some []⟩) p ok lat t0 = some (.ok ⟨0, 0, t0, []⟩) := by
  refine ⟨rfl, ?_, rfl⟩
  intro t ht
  unfold createTasksFromTemplate
  dsimp only
  rw [ht]

theorem C8_template_guard_witness :
    createTasksFromTemplate none cxParams okAll latZero 3 = none ∧
    (∀ t : Template, t.tasks = none →
      createTasksFromTemplate (some t) cxParams okAll latZero 3 = none) ∧
    createTasksFromTemplate (some ⟨some []⟩) cxParams okAll latZero 3 = some (.ok ⟨0, 0, 3, []⟩) :=
  C8_template_guard cxParams okAll latZero 3

/-- C8 counterexample: the template `\x7b"tasks": []\x7d` is empty, yet the
guard does not reject it: the dispatch flow proceeds (the call returns a
completed run, not the early-return sentinel), performing zero
create-task submissions. -/
theorem C8_counterexample :
    (createTasksFromTemplate (some ⟨some []⟩) cxParams okAll latZero 0).isSome = true ∧
    runSubmits (createTasksFromTemplate (some ⟨some []⟩) cxParams okAll latZero 0) = 0 := by
  decide

/-- C9: in every dispatch run over specs carrying `name` and `priority`,
the j-th submission is exactly the j-th template spec's payload (template
order), derived at that iteration's own wall-clock time; submission times
are non-decreasing along the trace; and every `autoScheduled.startDate`
serializes the submission time of its own task, so consecutive
`startDate`s denote non-decreasing instants. -/
theorem C9_submission_order (p : RunParams) (ok : Nat → Bool) (lat : Nat → Nat)
    (specs : List TaskSpec) (t0 : Int) (hwf : wfSpecs specs) :
    ∃ st', runLoop p ok lat specs 0 ⟨0, 0, t0, []⟩ = .ok st' ∧
      (∀ j : Nat, (submitPayloads st'.events)[j]? =
        (specs[j]?).map fun s => payloadOf s p (t0 + advance lat 0 j)) ∧
      List.Chain' (· ≤ ·) (submitTimes st'.events) ∧
      (∀ ts pay, Event.submit ts pay ∈ st'.events →
        ∀ a, pay.autoScheduled = some a → a.startDate = utcnowIso ts) := by
  refine ⟨_, runLoop_of_wf p ok lat specs 0 ⟨0, 0, t0, []⟩ hwf, ?_, ?_, ?_⟩
  · intro j
    simpa using submitPayloads_mkTrace p lat specs 0 t0 j
  · simpa using chain_submitTimes p lat specs 0 t0
  · intro ts pay hmem a ha
    exact mkTrace_submit_startDate p lat specs 0 t0 ts pay (by simpa using hmem) a ha

def w9specs : List TaskSpec :=
  [⟨some "a".data, none, none, none, some "HIGH".data⟩,
   ⟨some "b".data, none, none, none, some "LOW".data⟩]

def w9params : RunParams := ⟨"w".data, none, 0, some "Night".data, false⟩

theorem C9_submission_order_witness :
    wfSpecs w9specs ∧
      ∃ st', runLoop w9params okAll latZero w9specs 0 ⟨0, 0, 0, []⟩ = .ok st' ∧
        (∀ j : Nat, (submitPayloads st'.events)[j]? =
          (w9specs[j]?).map fun s => payloadOf s w9params (0 + advance latZero 0 j)) ∧
        List.Chain' (· ≤ ·) (submitTimes st'.events) ∧
        (∀ ts pay, Event.submit ts pay ∈ st'.events →
          ∀ a, pay.autoScheduled = some a → a.startDate = utcnowIso ts) :=
  ⟨by decide, C9_submission_order w9params okAll latZero w9specs 0 (by decide)⟩

/-- C10: every payload derived at replay carries the workspace id of the
run's selected workspace — even though each generated template entry
stores the generation-time workspace id — and the field deriver is
entirely insensitive to the stored `workspaceId` value, so replaying into
a different workspace retargets every task. -/
theorem C10_workspace_retarget (genWs : Str) (tasks : List MotionTask) (p : RunParams)
    (now : Int) :
    (∀ spec ∈ generateTemplateTasks genWs tasks,
      spec.workspaceId = some genWs ∧
      derivePayload spec p now = .ok (payloadOf spec p now) ∧
      (payloadOf spec p now).workspaceId = p.workspaceId) ∧
    (∀ (spec : TaskSpec) (w : Option Str),
      derivePayload { spec with workspaceId := w } p now = derivePayload spec p now) := by
  constructor
  · intro spec hmem
    simp only [generateTemplateTasks, List.mem_map] at hmem
    obtain ⟨task, -, h⟩ := hmem
    subst h
    exact ⟨rfl, derivePayload_of_wf _ p now ⟨rfl, rfl⟩, rfl⟩
  · intro spec w
    rfl

def w10tasks : List MotionTask := [⟨some "n".data, some "2025-03-01T10:00:00Z".data, some 60, none⟩]

def w10spec : TaskSpec :=
  ⟨some "n".data, some "A".data, some "2025-03-01T10:00:00Z".data, some 60, some "MEDIUM".data⟩

theorem C10_workspace_retarget_witness :
    w10spec ∈ generateTemplateTasks ("A").data w10tasks ∧
      (w10spec.workspaceId = some ("A").data ∧
        derivePayload w10spec cxParams 0 = .ok (payloadOf w10spec cxParams 0) ∧
        (payloadOf w10spec cxParams 0).workspaceId = cxParams.workspaceId) :=
  ⟨by decide,
    (C10_workspace_retarget ("A").data w10tasks cxParams 0).1 w10spec (by decide)⟩

end TaskTemplating
